import Mathlib

/-!
# Verification of the quadrant scatter chart renderer

Shallow embedding of `src/assets/agentic-chart.js` (and, where the spec is
the only authority, of behavior it describes): the static `frameworks`
configuration list, the chart configuration passed to the charting library,
the `quadrantBackground.beforeDraw` plugin hook (modelled as a pure function
from chart state to a list of canvas drawing commands), the tooltip and
datalabel callbacks, and the `DOMContentLoaded` entry point.

Numeric scores and pixel coordinates are rationals (`ℚ`); JavaScript
run-time failures (dereferencing `null`/`undefined`) are modelled with
`Except`/`Option`.
-/

/-- One review score record, from the `review` field of each entry of the
`frameworks` array in `agentic-chart.js` (`fit`, `maturity`,
`"assessment-date"`). -/
structure Review where
  fit : ℚ
  maturity : ℚ
  assessmentDate : String
  deriving Repr, DecidableEq

/-- One entry of the `frameworks` array in `agentic-chart.js`. -/
structure Framework where
  name : String
  link : String
  description : String
  review : Review
  deriving Repr, DecidableEq

/-- The static `frameworks` configuration array of `agentic-chart.js`,
transcribed entry by entry. -/
def frameworks : List Framework :=
  [ { name := "Pydantic AI"
    , link := "https://github.com/pydantic-ai/pydantic-ai"
    , description := "Pydantic AI: framework for building agentic applications with Pydantic, focused on type safety and developer experience."
    , review := { fit := 8.5, maturity := 8, assessmentDate := "2025-07-01" } }
  , { name := "Google ADK"
    , link := "https://github.com/google/adk"
    , description := "Google's Agent Development Kit: production-grade, multi-agent, model-agnostic, code-first, rapidly evolving."
    , review := { fit := 5, maturity := 3, assessmentDate := "2025-07-01" } }
  , { name := "LangGraph (LangChain)"
    , link := "https://github.com/langchain-ai/langgraph"
    , description := "LangGraph: expressive, graph-based agent orchestration for complex, stateful, multi-agent workflows."
    , review := { fit := 5, maturity := 8, assessmentDate := "2025-07-01" } }
  , { name := "BeeAI Framework"
    , link := "https://github.com/i-am-bee/beeai-framework"
    , description := "BeeAI: multi-agent, Python/TypeScript, production-ready, highly flexible, open-source."
    , review := { fit := 5.5, maturity := 7.5, assessmentDate := "2025-07-01" } }
  , { name := "CrewAI"
    , link := "https://github.com/joaomdmoura/crewAI"
    , description := "CrewAI: role-based, collaborative multi-agent framework for workflow composition and agent specialization."
    , review := { fit := 4, maturity := 7, assessmentDate := "2025-07-01" } }
  , { name := "OpenAI Agents SDK"
    , link := "https://github.com/openai/swarm"
    , description := "OpenAI Agents SDK: lightweight, ergonomic, production-ready for multi-agent orchestration (formerly Swarm)."
    , review := { fit := 4, maturity := 7.5, assessmentDate := "2025-07-01" } }
  , { name := "SmolAgents (Hugging Face)"
    , link := "https://github.com/huggingface/smolagents"
    , description := "SmolAgents: minimalist, code-first, code-executing agents, efficient and open-source."
    , review := { fit := 8, maturity := 6.5, assessmentDate := "2025-07-01" } }
  , { name := "AutoGen (Microsoft)"
    , link := "https://github.com/microsoft/autogen"
    , description := "AutoGen: multi-agent, LLM-powered conversations and workflows, strong on agent-to-agent communication."
    , review := { fit := 3, maturity := 7, assessmentDate := "2025-07-01" } }
  , { name := "Agent Zero"
    , link := "https://aiagentstore.ai/ai-agent/agent-zero"
    , description := "Agent Zero: open-source, highly customizable, supports dynamic, interactive, and multi-agent systems."
    , review := { fit := 3, maturity := 3, assessmentDate := "2025-07-01" } }
  , { name := "MetaGPT"
    , link := "https://github.com/geekan/MetaGPT"
    , description := "MetaGPT: multi-agent, collaborative software engineering and automation, role-based agent teams."
    , review := { fit := 1, maturity := 4, assessmentDate := "2025-07-01" } }
  , { name := "Haystack Agents"
    , link := "https://github.com/deepset-ai/haystack"
    , description := "Haystack Agents: agentic pipelines for search, retrieval, and reasoning, strong LLM and knowledge base integration."
    , review := { fit := 6.5, maturity := 7, assessmentDate := "2025-07-01" } }
  ]

/-- One `{x, y}` point of a scatter dataset. -/
structure ScatterPoint where
  x : ℚ
  y : ℚ
  deriving Repr, DecidableEq

/-- One dataset of the chart's `data.datasets` array. -/
structure Dataset where
  label : String
  data : List ScatterPoint
  backgroundColor : String
  deriving Repr, DecidableEq

/-- `data.datasets` as built in `new Chart(...)`:
`frameworks.map(fw => ({label: fw.name, data: [{x: fw.review.fit, y: fw.review.maturity}], backgroundColor: 'rgba(75, 192, 192, 1)'}))`. -/
def mkDatasets (fws : List Framework) : List Dataset :=
  fws.map fun fw =>
    { label := fw.name
    , data := [{ x := fw.review.fit, y := fw.review.maturity }]
    , backgroundColor := "rgba(75, 192, 192, 1)" }

/-- An axis `title` sub-object of the scale configuration. -/
structure AxisTitle where
  display : Bool
  text : String
  deriving Repr, DecidableEq

/-- One axis entry of `options.scales`; `type` and `position` are optional
keys (absent on the y axis in the source). -/
structure AxisConfig where
  title : AxisTitle
  scaleType : Option String
  position : Option String
  min : ℚ
  max : ℚ
  deriving Repr, DecidableEq

/-- The `options.scales.x` object of the source: linear, bottom, range 0–10,
titled "Fit". -/
def scalesX : AxisConfig :=
  { title := { display := true, text := "Fit" }
  , scaleType := some "linear"
  , position := some "bottom"
  , min := 0
  , max := 10 }

/-- The `options.scales.y` object of the source: no explicit `type` or
`position` key, range 0–10, titled "Maturity". -/
def scalesY : AxisConfig :=
  { title := { display := true, text := "Maturity" }
  , scaleType := none
  , position := none
  , min := 0
  , max := 10 }

/-- Modelled from the spec: the charting library (an external collaborator,
not under `src/`) defaults an axis of a scatter chart whose configuration
carries no explicit `type` key to a linear scale, so both configured axes
are effectively linear. -/
def resolvedScaleType (cfg : AxisConfig) : String :=
  cfg.scaleType.getD "linear"

/-- The `options.plugins.datalabels` configuration object (its data part;
the `formatter` callback is `datalabelsFormatter` below). -/
structure DatalabelsConfig where
  align : String
  anchor : String
  display : Bool
  deriving Repr, DecidableEq

/-- The whole configuration object passed to `new Chart(ctx, {...})`,
as a function of the item list the datasets are built from (the source
closes over the global `frameworks`). -/
structure ChartConfig where
  type : String
  datasets : List Dataset
  legendDisplay : Bool
  tooltipEnabled : Bool
  datalabels : DatalabelsConfig
  hoverMode : Option String
  scalesX : AxisConfig
  scalesY : AxisConfig
  deriving Repr, DecidableEq

/-- `new Chart(ctx, {type: 'scatter', data: ..., options: ...})` of the
source, with the dataset-building `map` applied to the given item list and
every other option the literal constant of the source. -/
def buildChartConfig (fws : List Framework) : ChartConfig :=
  { type := "scatter"
  , datasets := mkDatasets fws
  , legendDisplay := false
  , tooltipEnabled := true
  , datalabels := { align := "top", anchor := "end", display := true }
  , hoverMode := none
  , scalesX := scalesX
  , scalesY := scalesY }

/-! ## Chart layout state and the canvas drawing model -/

/-- The `chart.chartArea` rectangle: pixel bounds of the plot area. -/
structure ChartArea where
  left : ℚ
  top : ℚ
  right : ℚ
  bottom : ℚ
  deriving Repr, DecidableEq

/-- Modelled from the spec: a computed linear coordinate scale of the
charting library (an external collaborator, not under `src/`): it maps the
configured value range `[vmin, vmax]` affinely onto the pixel range
`[pixAtMin, pixAtMax]` (`getPixelForValue`); the spec's §8.1 requires this
mapping to be what the chart uses to place points. -/
structure Scale where
  vmin : ℚ
  vmax : ℚ
  pixAtMin : ℚ
  pixAtMax : ℚ
  deriving Repr, DecidableEq

/-- `scale.getPixelForValue(v)`: affine interpolation from value space to
pixel space. -/
def Scale.getPixelForValue (s : Scale) (v : ℚ) : ℚ :=
  s.pixAtMin + (v - s.vmin) / (s.vmax - s.vmin) * (s.pixAtMax - s.pixAtMin)

/-- `scale.getValueForPixel(p)`: the inverse affine interpolation, from
pixel space back to value space. -/
def Scale.getValueForPixel (s : Scale) (p : ℚ) : ℚ :=
  s.vmin + (p - s.pixAtMin) / (s.pixAtMax - s.pixAtMin) * (s.vmax - s.vmin)

/-- The destructured `{ctx, chartArea, scales}` state of a chart instance as
seen by the `beforeDraw` hook; `chartArea` is absent (`undefined`) before
layout, hence an `Option`. -/
structure ChartState where
  chartArea : Option ChartArea
  x : Scale
  y : Scale
  deriving Repr, DecidableEq

/-- Modelled from the spec: the charting library lays out the configured
linear axes over the computed chart area — x runs left to right over
`[min, max]`, y runs bottom to top (screen y decreases as the value grows).
This is the state `beforeDraw` observes once layout has happened. -/
def layoutChart (area : ChartArea) : ChartState :=
  { chartArea := some area
  , x := { vmin := scalesX.min, vmax := scalesX.max
         , pixAtMin := area.left, pixAtMax := area.right }
  , y := { vmin := scalesY.min, vmax := scalesY.max
         , pixAtMin := area.bottom, pixAtMax := area.top } }

/-- One 2D-canvas call issued by the `beforeDraw` hook. -/
inductive DrawCmd where
  | save : DrawCmd
  | restore : DrawCmd
  | setFillStyle (color : String) : DrawCmd
  | setFont (font : String) : DrawCmd
  | setTextAlign (align : String) : DrawCmd
  | setTextBaseline (baseline : String) : DrawCmd
  | fillRect (x y w h : ℚ) : DrawCmd
  | fillText (text : String) (x y : ℚ) : DrawCmd
  deriving Repr, DecidableEq

namespace quadrantBackground

/-- The `quadrantBackground.beforeDraw` hook of the source, as the list of
canvas calls it issues on the given chart state. Color strings are the
entries `colors[0] .. colors[3]` of the local `colors` array, inlined. -/
def beforeDraw (chart : ChartState) : List DrawCmd :=
  match chart.chartArea with
  | none => []
  | some chartArea =>
    let xMid := chart.x.getPixelForValue 5
    let yMid := chart.y.getPixelForValue 5
    [ DrawCmd.save
    , -- Q1: top-right
      DrawCmd.setFillStyle "rgba(205, 255, 205, 0.4)"
    , DrawCmd.fillRect xMid chartArea.top (chartArea.right - xMid) (yMid - chartArea.top)
    , -- Q2: top-left
      DrawCmd.setFillStyle "rgba(205, 235, 255, 0.4)"
    , DrawCmd.fillRect chartArea.left chartArea.top (xMid - chartArea.left) (yMid - chartArea.top)
    , -- Q3: bottom-left
      DrawCmd.setFillStyle "rgba(255, 205, 205, 0.4)"
    , DrawCmd.fillRect chartArea.left yMid (xMid - chartArea.left) (chartArea.bottom - yMid)
    , -- Q4: bottom-right
      DrawCmd.setFillStyle "rgba(255, 235, 205, 0.4)"
    , DrawCmd.fillRect xMid yMid (chartArea.right - xMid) (chartArea.bottom - yMid)
    , DrawCmd.restore
    , -- Draw quadrant labels
      DrawCmd.save
    , DrawCmd.setFont "bold 18px sans-serif"
    , DrawCmd.setTextAlign "center"
    , DrawCmd.setTextBaseline "middle"
    , DrawCmd.setFillStyle "#333"
    , -- Q1 (top-right)
      DrawCmd.fillText "Adopt" (xMid + (chartArea.right - xMid) / 2) (chartArea.top + (yMid - chartArea.top) / 2)
    , -- Q2 (top-left)
      DrawCmd.fillText "Maintain" (chartArea.left + (xMid - chartArea.left) / 2) (chartArea.top + (yMid - chartArea.top) / 2)
    , -- Q3 (bottom-left)
      DrawCmd.fillText "Avoid" (chartArea.left + (xMid - chartArea.left) / 2) (yMid + (chartArea.bottom - yMid) / 2)
    , -- Q4 (bottom-right)
      DrawCmd.fillText "Investigate" (xMid + (chartArea.right - xMid) / 2) (yMid + (chartArea.bottom - yMid) / 2)
    , DrawCmd.restore ]

end quadrantBackground

/-! ## Interpreting the command list -/

/-- An axis-aligned rectangle given as `fillRect` gives it: origin and
extent. -/
structure Rect where
  x : ℚ
  y : ℚ
  w : ℚ
  h : ℚ
  deriving Repr, DecidableEq

/-- Membership in the closed rectangle. -/
def Rect.memC (r : Rect) (px py : ℚ) : Prop :=
  r.x ≤ px ∧ px ≤ r.x + r.w ∧ r.y ≤ py ∧ py ≤ r.y + r.h

/-- Membership in the open interior of the rectangle. -/
def Rect.memI (r : Rect) (px py : ℚ) : Prop :=
  r.x < px ∧ px < r.x + r.w ∧ r.y < py ∧ py < r.y + r.h

instance (r : Rect) (px py : ℚ) : Decidable (r.memC px py) := by
  unfold Rect.memC; infer_instance

instance (r : Rect) (px py : ℚ) : Decidable (r.memI px py) := by
  unfold Rect.memI; infer_instance

/-- Replay a command list, tracking the current `fillStyle`, and collect the
filled rectangles with the style each was filled with, in paint order. -/
def fillRectsFrom : List DrawCmd → String → List (Rect × String)
  | [], _ => []
  | DrawCmd.setFillStyle c :: rest, _ => fillRectsFrom rest c
  | DrawCmd.fillRect x y w h :: rest, c => (⟨x, y, w, h⟩, c) :: fillRectsFrom rest c
  | _ :: rest, c => fillRectsFrom rest c

/-- The filled rectangles of a command list (initial fill style is the
canvas default, black). -/
def fillRectsOf (cmds : List DrawCmd) : List (Rect × String) :=
  fillRectsFrom cmds "#000000"

/-- The texts a command list draws, with their anchor positions, in order. -/
def fillTextsOf : List DrawCmd → List (String × ℚ × ℚ)
  | [] => []
  | DrawCmd.fillText s x y :: rest => (s, x, y) :: fillTextsOf rest
  | _ :: rest => fillTextsOf rest

/-! ## Tooltip and datalabel callbacks -/

/-- One element of the `context` array a tooltip callback receives: the
hovered point's dataset index and its dataset. -/
structure TooltipItem where
  datasetIndex : ℕ
  dataset : Dataset
  deriving Repr, DecidableEq

/-- The `tooltip.callbacks.title` function of the source:
`return context[0].dataset.label`. Indexing `context[0]` on an empty array
yields `undefined` and the member access then fails, hence `Option`. -/
def tooltipTitle (context : List TooltipItem) : Option String :=
  context.head?.map fun c => c.dataset.label

/-- The `tooltip.callbacks.label` function of the source:
`const fw = frameworks[context.datasetIndex]; return fw.description`.
The closure captures the item list the chart was built from; an
out-of-range index yields `undefined` and the member access fails, hence
`Option`. -/
def tooltipLabel (fws : List Framework) (context : TooltipItem) : Option String :=
  (fws.get? context.datasetIndex).map Framework.description

/-- Modelled from the spec: the charting library (not under `src/`)
dispatches a hover on the (single) point of dataset `i` to the tooltip
callbacks with a one-element context array for that point; the hook itself
lives in the library, only the callbacks above are in the source. -/
def hoverTooltipItems (cfg : ChartConfig) (i : ℕ) : List TooltipItem :=
  match cfg.datasets.get? i with
  | some d => [{ datasetIndex := i, dataset := d }]
  | none => []

/-- The `context` argument of the datalabels `formatter`: it exposes the
dataset the labelled point belongs to. -/
structure DatalabelContext where
  dataset : Dataset
  deriving Repr, DecidableEq

/-- The `options.plugins.datalabels.formatter` function of the source:
`return context.dataset.label` — the point's value is ignored. -/
def datalabelsFormatter (_value : ScatterPoint) (context : DatalabelContext) : String :=
  context.dataset.label

/-! ## The DOMContentLoaded entry point -/

/-- A canvas element addressable by id. -/
structure CanvasElement where
  id : String
  deriving Repr, DecidableEq

/-- The part of the host document the script touches: which canvas elements
exist, by id. -/
structure Document where
  canvases : List CanvasElement
  deriving Repr, DecidableEq

/-- `document.getElementById(id)`: the first element with that id, or
`null` (`none`) when absent. -/
def Document.getElementById (doc : Document) (elementId : String) : Option CanvasElement :=
  doc.canvases.find? fun c => c.id == elementId

/-- A JavaScript run-time error surfaced by the handler. -/
inductive JsError where
  | typeError (message : String)
  deriving Repr, DecidableEq

/-- The constructed chart instance: its configuration, plus the fact the
`quadrantBackground` plugin was registered with it. -/
structure RenderedChart where
  config : ChartConfig
  quadrantPluginRegistered : Bool
  deriving Repr, DecidableEq

/-- The `DOMContentLoaded` handler of `agentic-chart.js`. Its first
statement is
`const ctx = document.getElementById('agentic-ratings').getContext('2d');`
with no guard: when the element is absent, `getElementById` returns `null`
and the `.getContext` access throws a `TypeError`, so the handler neither
completes nor constructs a chart; otherwise it constructs the chart from
the global `frameworks` with the `quadrantBackground` plugin. -/
def onDOMContentLoaded (doc : Document) : Except JsError RenderedChart :=
  match doc.getElementById "agentic-ratings" with
  | none => Except.error (JsError.typeError "null has no method getContext")
  | some _ => Except.ok { config := buildChartConfig frameworks, quadrantPluginRegistered := true }

/-! ## The auxiliary index list (spec-modelled) -/

/-- Modelled from the spec: the spec's §3 Item record for the auxiliary
index list (`detail_path` controls membership); the renderer for this list
is not present under `src/`. -/
structure Item where
  name : String
  link : Option String
  description : String
  score_x : ℚ
  score_y : ℚ
  detail_path : Option String
  deriving Repr, DecidableEq

/-- Whether an item qualifies for the auxiliary index list: its
`detail_path` is present and non-empty. -/
def Item.hasDetail (it : Item) : Bool :=
  !(it.detail_path.getD "" == "")

/-- The rendered auxiliary index region: a header and a list of links
(link text, link target). -/
structure RenderedIndex where
  header : String
  links : List (String × String)
  deriving Repr, DecidableEq

/-- Modelled from the spec: the auxiliary index list renderer is not under
`src/`. Per the spec's §4.1: render a list containing only items with a
non-empty `detail_path`, each as a link with the item's `name` as link text
and `detail_path` as target; if no items qualify, render nothing (omit the
list and its header entirely) — the output region stays empty (`none`). -/
def renderAuxiliaryIndex (items : List Item) : Option RenderedIndex :=
  let qualifying := items.filter Item.hasDetail
  if qualifying.isEmpty then
    none
  else
    some { header := "Detailed reviews"
         , links := qualifying.map fun it => (it.name, it.detail_path.getD "") }

/-! ## Derived geometry: the quadrant rectangles and the point pixel map -/

/-- The pixel x coordinate of the quadrant boundary: `getPixelForValue(5)`
on the laid-out x scale (the `xMid` of the hook). -/
def xMidPix (area : ChartArea) : ℚ :=
  (layoutChart area).x.getPixelForValue 5

/-- The pixel y coordinate of the quadrant boundary: `getPixelForValue(5)`
on the laid-out y scale (the `yMid` of the hook). -/
def yMidPix (area : ChartArea) : ℚ :=
  (layoutChart area).y.getPixelForValue 5

/-- The Q1 (top-right) rectangle the hook fills, from its `fillRect`
arguments. -/
def q1Rect (area : ChartArea) : Rect :=
  ⟨xMidPix area, area.top, area.right - xMidPix area, yMidPix area - area.top⟩

/-- The Q2 (top-left) rectangle the hook fills. -/
def q2Rect (area : ChartArea) : Rect :=
  ⟨area.left, area.top, xMidPix area - area.left, yMidPix area - area.top⟩

/-- The Q3 (bottom-left) rectangle the hook fills. -/
def q3Rect (area : ChartArea) : Rect :=
  ⟨area.left, yMidPix area, xMidPix area - area.left, area.bottom - yMidPix area⟩

/-- The Q4 (bottom-right) rectangle the hook fills. -/
def q4Rect (area : ChartArea) : Rect :=
  ⟨xMidPix area, yMidPix area, area.right - xMidPix area, area.bottom - yMidPix area⟩

/-- The center of a rectangle — where the hook anchors each quadrant label
(`textAlign` center, `textBaseline` middle). -/
def Rect.center (r : Rect) : ℚ × ℚ :=
  (r.x + r.w / 2, r.y + r.h / 2)

/-- The pixel position of the point plotted for scores `(vx, vy)` under the
laid-out scales. -/
def pointPixel (area : ChartArea) (vx vy : ℚ) : ℚ × ℚ :=
  ((layoutChart area).x.getPixelForValue vx, (layoutChart area).y.getPixelForValue vy)

/-! ## Helper lemmas on the linear pixel map -/

theorem xMidPix_eq (area : ChartArea) :
    xMidPix area = (area.left + area.right) / 2 := by
  simp only [xMidPix, layoutChart, Scale.getPixelForValue, scalesX]
  ring

theorem yMidPix_eq (area : ChartArea) :
    yMidPix area = (area.top + area.bottom) / 2 := by
  simp only [yMidPix, layoutChart, Scale.getPixelForValue, scalesY]
  ring

theorem pointPixel_fst (area : ChartArea) (vx vy : ℚ) :
    (pointPixel area vx vy).1 = area.left + vx / 10 * (area.right - area.left) := by
  simp only [pointPixel, layoutChart, Scale.getPixelForValue, scalesX]
  ring

theorem pointPixel_snd (area : ChartArea) (vx vy : ℚ) :
    (pointPixel area vx vy).2 = area.bottom + vy / 10 * (area.top - area.bottom) := by
  simp only [pointPixel, layoutChart, Scale.getPixelForValue, scalesY]
  ring

theorem left_le_px (area : ChartArea) (vx vy : ℚ)
    (hlr : area.left < area.right) (h0 : 0 ≤ vx) :
    area.left ≤ (pointPixel area vx vy).1 := by
  rw [pointPixel_fst]
  nlinarith [mul_nonneg h0 (le_of_lt (sub_pos.mpr hlr))]

theorem px_le_right (area : ChartArea) (vx vy : ℚ)
    (hlr : area.left < area.right) (h10 : vx ≤ 10) :
    (pointPixel area vx vy).1 ≤ area.right := by
  rw [pointPixel_fst]
  nlinarith [mul_nonneg (by linarith : (0:ℚ) ≤ 10 - vx) (le_of_lt (sub_pos.mpr hlr))]

theorem mid_lt_px (area : ChartArea) (vx vy : ℚ)
    (hlr : area.left < area.right) (h5 : 5 < vx) :
    xMidPix area < (pointPixel area vx vy).1 := by
  rw [pointPixel_fst, xMidPix_eq]
  nlinarith [mul_pos (by linarith : (0:ℚ) < vx - 5) (sub_pos.mpr hlr)]

theorem px_lt_mid (area : ChartArea) (vx vy : ℚ)
    (hlr : area.left < area.right) (h5 : vx < 5) :
    (pointPixel area vx vy).1 < xMidPix area := by
  rw [pointPixel_fst, xMidPix_eq]
  nlinarith [mul_pos (by linarith : (0:ℚ) < 5 - vx) (sub_pos.mpr hlr)]

theorem top_le_py (area : ChartArea) (vx vy : ℚ)
    (htb : area.top < area.bottom) (h10 : vy ≤ 10) :
    area.top ≤ (pointPixel area vx vy).2 := by
  rw [pointPixel_snd]
  nlinarith [mul_nonneg (by linarith : (0:ℚ) ≤ 10 - vy) (le_of_lt (sub_pos.mpr htb))]

theorem py_le_bottom (area : ChartArea) (vx vy : ℚ)
    (htb : area.top < area.bottom) (h0 : 0 ≤ vy) :
    (pointPixel area vx vy).2 ≤ area.bottom := by
  rw [pointPixel_snd]
  nlinarith [mul_nonneg h0 (le_of_lt (sub_pos.mpr htb))]

theorem py_lt_mid (area : ChartArea) (vx vy : ℚ)
    (htb : area.top < area.bottom) (h5 : 5 < vy) :
    (pointPixel area vx vy).2 < yMidPix area := by
  rw [pointPixel_snd, yMidPix_eq]
  nlinarith [mul_pos (by linarith : (0:ℚ) < vy - 5) (sub_pos.mpr htb)]

theorem mid_lt_py (area : ChartArea) (vx vy : ℚ)
    (htb : area.top < area.bottom) (h5 : vy < 5) :
    yMidPix area < (pointPixel area vx vy).2 := by
  rw [pointPixel_snd, yMidPix_eq]
  nlinarith [mul_pos (by linarith : (0:ℚ) < 5 - vy) (sub_pos.mpr htb)]

/-! ## Claim theorems -/

/-- C4: on any laid-out chart area the `quadrantBackground` hook paints
exactly four rectangles splitting the plot area at the pixel midpoint of
value 5 on each axis, in the order top-right (Q1), top-left (Q2),
bottom-left (Q3), bottom-right (Q4), each with a distinct low-opacity fill
color; the four rectangles have pairwise disjoint interiors and their
closed union covers the whole plot area, so no later paint overwrites an
earlier one outside its own quadrant. -/
theorem C4_four_disjoint_covering_rectangles (area : ChartArea) :
    fillRectsOf (quadrantBackground.beforeDraw (layoutChart area)) =
      [ (q1Rect area, "rgba(205, 255, 205, 0.4)")
      , (q2Rect area, "rgba(205, 235, 255, 0.4)")
      , (q3Rect area, "rgba(255, 205, 205, 0.4)")
      , (q4Rect area, "rgba(255, 235, 205, 0.4)") ]
    ∧ ([ "rgba(205, 255, 205, 0.4)", "rgba(205, 235, 255, 0.4)"
       , "rgba(255, 205, 205, 0.4)", "rgba(255, 235, 205, 0.4)" ].Pairwise (· ≠ ·))
    ∧ (∀ px py : ℚ,
        ¬((q1Rect area).memI px py ∧ (q2Rect area).memI px py)
        ∧ ¬((q1Rect area).memI px py ∧ (q3Rect area).memI px py)
        ∧ ¬((q1Rect area).memI px py ∧ (q4Rect area).memI px py)
        ∧ ¬((q2Rect area).memI px py ∧ (q3Rect area).memI px py)
        ∧ ¬((q2Rect area).memI px py ∧ (q4Rect area).memI px py)
        ∧ ¬((q3Rect area).memI px py ∧ (q4Rect area).memI px py))
    ∧ (∀ px py : ℚ, area.left ≤ px → px ≤ area.right → area.top ≤ py → py ≤ area.bottom →
        (q1Rect area).memC px py ∨ (q2Rect area).memC px py
        ∨ (q3Rect area).memC px py ∨ (q4Rect area).memC px py) := by
  refine ⟨rfl, by decide, ?_, ?_⟩
  · intro px py
    simp only [Rect.memI, q1Rect, q2Rect, q3Rect, q4Rect]
    refine ⟨?_, ?_, ?_, ?_, ?_, ?_⟩ <;>
      (rintro ⟨⟨a1, a2, a3, a4⟩, b1, b2, b3, b4⟩; linarith)
  · intro px py hl hr ht hb
    simp only [Rect.memC, q1Rect, q2Rect, q3Rect, q4Rect]
    rcases le_total px (xMidPix area) with hx | hx <;>
      rcases le_total py (yMidPix area) with hy | hy
    · exact Or.inr (Or.inl ⟨hl, by linarith, ht, by linarith⟩)
    · exact Or.inr (Or.inr (Or.inl ⟨hl, by linarith, hy, by linarith⟩))
    · exact Or.inl ⟨hx, by linarith, ht, by linarith⟩
    · exact Or.inr (Or.inr (Or.inr ⟨hx, by linarith, hy, by linarith⟩))

/-- C2: quadrant label assignment is a pure function of the point's pixel
position relative to the value-space midpoint (5,5) and is independent of
the supplied items (`quadrantBackground.beforeDraw` takes no item list):
the four labels "Adopt", "Maintain", "Avoid", "Investigate" are drawn at
the centers of Q1–Q4 respectively (each center inside its quadrant
rectangle), and a point with scores in the appropriate strict sub-range of
[0,10] lands inside exactly that label's rectangle: x>5, y>5 in the
"Adopt" rectangle; x<5, y>5 in "Maintain"; x<5, y<5 in "Avoid"; x>5, y<5
in the fourth quadrant, labeled "Investigate" (the claim's acceptable
alternative for "Watch"). -/
theorem C2_quadrant_label_assignment (area : ChartArea) (vx vy : ℚ)
    (hlr : area.left < area.right) (htb : area.top < area.bottom) :
    fillTextsOf (quadrantBackground.beforeDraw (layoutChart area)) =
      [ ("Adopt", (q1Rect area).center)
      , ("Maintain", (q2Rect area).center)
      , ("Avoid", (q3Rect area).center)
      , ("Investigate", (q4Rect area).center) ]
    ∧ (q1Rect area).memC (q1Rect area).center.1 (q1Rect area).center.2
    ∧ (q2Rect area).memC (q2Rect area).center.1 (q2Rect area).center.2
    ∧ (q3Rect area).memC (q3Rect area).center.1 (q3Rect area).center.2
    ∧ (q4Rect area).memC (q4Rect area).center.1 (q4Rect area).center.2
    ∧ (5 < vx → vx ≤ 10 → 5 < vy → vy ≤ 10 →
        (q1Rect area).memC (pointPixel area vx vy).1 (pointPixel area vx vy).2
        ∧ ¬(q2Rect area).memC (pointPixel area vx vy).1 (pointPixel area vx vy).2
        ∧ ¬(q3Rect area).memC (pointPixel area vx vy).1 (pointPixel area vx vy).2
        ∧ ¬(q4Rect area).memC (pointPixel area vx vy).1 (pointPixel area vx vy).2)
    ∧ (0 ≤ vx → vx < 5 → 5 < vy → vy ≤ 10 →
        (q2Rect area).memC (pointPixel area vx vy).1 (pointPixel area vx vy).2
        ∧ ¬(q1Rect area).memC (pointPixel area vx vy).1 (pointPixel area vx vy).2
        ∧ ¬(q3Rect area).memC (pointPixel area vx vy).1 (pointPixel area vx vy).2
        ∧ ¬(q4Rect area).memC (pointPixel area vx vy).1 (pointPixel area vx vy).2)
    ∧ (0 ≤ vx → vx < 5 → 0 ≤ vy → vy < 5 →
        (q3Rect area).memC (pointPixel area vx vy).1 (pointPixel area vx vy).2
        ∧ ¬(q1Rect area).memC (pointPixel area vx vy).1 (pointPixel area vx vy).2
        ∧ ¬(q2Rect area).memC (pointPixel area vx vy).1 (pointPixel area vx vy).2
        ∧ ¬(q4Rect area).memC (pointPixel area vx vy).1 (pointPixel area vx vy).2)
    ∧ (5 < vx → vx ≤ 10 → 0 ≤ vy → vy < 5 →
        (q4Rect area).memC (pointPixel area vx vy).1 (pointPixel area vx vy).2
        ∧ ¬(q1Rect area).memC (pointPixel area vx vy).1 (pointPixel area vx vy).2
        ∧ ¬(q2Rect area).memC (pointPixel area vx vy).1 (pointPixel area vx vy).2
        ∧ ¬(q3Rect area).memC (pointPixel area vx vy).1 (pointPixel area vx vy).2) := by
  have hxm₁ : area.left ≤ xMidPix area := by rw [xMidPix_eq]; linarith
  have hxm₂ : xMidPix area ≤ area.right := by rw [xMidPix_eq]; linarith
  have hym₁ : area.top ≤ yMidPix area := by rw [yMidPix_eq]; linarith
  have hym₂ : yMidPix area ≤ area.bottom := by rw [yMidPix_eq]; linarith
  refine ⟨rfl, ?_, ?_, ?_, ?_, ?_, ?_, ?_, ?_⟩
  · simp only [Rect.memC, Rect.center, q1Rect]; refine ⟨?_, ?_, ?_, ?_⟩ <;> linarith
  · simp only [Rect.memC, Rect.center, q2Rect]; refine ⟨?_, ?_, ?_, ?_⟩ <;> linarith
  · simp only [Rect.memC, Rect.center, q3Rect]; refine ⟨?_, ?_, ?_, ?_⟩ <;> linarith
  · simp only [Rect.memC, Rect.center, q4Rect]; refine ⟨?_, ?_, ?_, ?_⟩ <;> linarith
  · intro ha hb hc hd
    have h₁ := mid_lt_px area vx vy hlr ha
    have h₂ := px_le_right area vx vy hlr hb
    have h₃ := py_lt_mid area vx vy htb hc
    have h₄ := top_le_py area vx vy htb hd
    simp only [Rect.memC, q1Rect, q2Rect, q3Rect, q4Rect]
    refine ⟨⟨by linarith, by linarith, by linarith, by linarith⟩, ?_, ?_, ?_⟩ <;>
      (rintro ⟨u1, u2, u3, u4⟩; linarith)
  · intro ha hb hc hd
    have h₁ := left_le_px area vx vy hlr ha
    have h₂ := px_lt_mid area vx vy hlr hb
    have h₃ := py_lt_mid area vx vy htb hc
    have h₄ := top_le_py area vx vy htb hd
    simp only [Rect.memC, q1Rect, q2Rect, q3Rect, q4Rect]
    refine ⟨⟨by linarith, by linarith, by linarith, by linarith⟩, ?_, ?_, ?_⟩ <;>
      (rintro ⟨u1, u2, u3, u4⟩; linarith)
  · intro ha hb hc hd
    have h₁ := left_le_px area vx vy hlr ha
    have h₂ := px_lt_mid area vx vy hlr hb
    have h₃ := py_le_bottom area vx vy htb hc
    have h₄ := mid_lt_py area vx vy htb hd
    simp only [Rect.memC, q1Rect, q2Rect, q3Rect, q4Rect]
    refine ⟨⟨by linarith, by linarith, by linarith, by linarith⟩, ?_, ?_, ?_⟩ <;>
      (rintro ⟨u1, u2, u3, u4⟩; linarith)
  · intro ha hb hc hd
    have h₁ := mid_lt_px area vx vy hlr ha
    have h₂ := px_le_right area vx vy hlr hb
    have h₃ := py_le_bottom area vx vy htb hc
    have h₄ := mid_lt_py area vx vy htb hd
    simp only [Rect.memC, q1Rect, q2Rect, q3Rect, q4Rect]
    refine ⟨⟨by linarith, by linarith, by linarith, by linarith⟩, ?_, ?_, ?_⟩ <;>
      (rintro ⟨u1, u2, u3, u4⟩; linarith)

/-- Witness for C2: a concrete plot area (left 0, top 0, right 100, bottom
80) and the point (7,7): the hypotheses hold and the point lands in the
"Adopt" quadrant rectangle and in no other. -/
theorem C2_quadrant_label_assignment_witness :
    (0:ℚ) < 100 ∧ (0:ℚ) < 80 ∧ (5:ℚ) < 7 ∧ (7:ℚ) ≤ 10 ∧
    ((q1Rect ⟨0, 0, 100, 80⟩).memC (pointPixel ⟨0, 0, 100, 80⟩ 7 7).1
        (pointPixel ⟨0, 0, 100, 80⟩ 7 7).2
      ∧ ¬(q2Rect ⟨0, 0, 100, 80⟩).memC (pointPixel ⟨0, 0, 100, 80⟩ 7 7).1
        (pointPixel ⟨0, 0, 100, 80⟩ 7 7).2
      ∧ ¬(q3Rect ⟨0, 0, 100, 80⟩).memC (pointPixel ⟨0, 0, 100, 80⟩ 7 7).1
        (pointPixel ⟨0, 0, 100, 80⟩ 7 7).2
      ∧ ¬(q4Rect ⟨0, 0, 100, 80⟩).memC (pointPixel ⟨0, 0, 100, 80⟩ 7 7).1
        (pointPixel ⟨0, 0, 100, 80⟩ 7 7).2) :=
  ⟨by norm_num, by norm_num, by norm_num, by norm_num,
    (C2_quadrant_label_assignment ⟨0, 0, 100, 80⟩ 7 7 (by norm_num)
      (by norm_num)).2.2.2.2.2.1 (by norm_num) (by norm_num) (by norm_num) (by norm_num)⟩

/-- C10: the quadrant-background draw hook is total over its chart
argument: whenever `chart.chartArea` is absent, `beforeDraw` returns
immediately, issuing no drawing command at all. -/
theorem C10_beforeDraw_guards_missing_chartArea (chart : ChartState)
    (h : chart.chartArea = none) :
    quadrantBackground.beforeDraw chart = [] := by
  unfold quadrantBackground.beforeDraw
  rw [h]

/-- Witness for C10: a concrete chart state with no chart area produces no
drawing command. -/
theorem C10_beforeDraw_guards_missing_chartArea_witness :
    quadrantBackground.beforeDraw
      { chartArea := none
      , x := { vmin := 0, vmax := 10, pixAtMin := 0, pixAtMax := 100 }
      , y := { vmin := 0, vmax := 10, pixAtMin := 80, pixAtMax := 0 } } = [] :=
  C10_beforeDraw_guards_missing_chartArea _ rfl

/-- C1 counterexample: in a document with no canvas element at all,
`getElementById('agentic-ratings')` is `null`, yet the `DOMContentLoaded`
handler does not return normally — its unguarded
`.getContext('2d')` access on `null` throws a `TypeError` (the handler's
result is an error, not a completed no-op), refuting the claim that the
handler returns without throwing. -/
theorem C1_counterexample_missing_canvas_throws :
    (Document.mk []).getElementById "agentic-ratings" = none
    ∧ onDOMContentLoaded (Document.mk [])
        = Except.error (JsError.typeError "null has no method getContext")
    ∧ (onDOMContentLoaded (Document.mk [])).isOk = false :=
  ⟨rfl, rfl, rfl⟩

/-- C1 amended: if the canvas element with id `agentic-ratings` is absent
when the `DOMContentLoaded` handler runs, the handler does not construct a
chart, but it does not return silently either: it throws a `TypeError`
from the unguarded `.getContext('2d')` member access on the `null` result
of `getElementById`. -/
theorem C1_missing_canvas_behavior (doc : Document)
    (h : doc.getElementById "agentic-ratings" = none) :
    onDOMContentLoaded doc
      = Except.error (JsError.typeError "null has no method getContext") := by
  unfold onDOMContentLoaded
  rw [h]

/-- Witness for C1 amended: the empty document has no such canvas and the
handler errors on it. -/
theorem C1_missing_canvas_behavior_witness :
    (Document.mk []).getElementById "agentic-ratings" = none
    ∧ onDOMContentLoaded (Document.mk [])
        = Except.error (JsError.typeError "null has no method getContext") :=
  ⟨rfl, C1_missing_canvas_behavior (Document.mk []) rfl⟩

/-- Shared helper: the dataset at index `i` of the built configuration. -/
theorem buildChartConfig_datasets_get? (fws : List Framework) (i : ℕ)
    (h : i < fws.length) :
    (buildChartConfig fws).datasets.get? i =
      some { label := (fws.get ⟨i, h⟩).name
           , data := [{ x := (fws.get ⟨i, h⟩).review.fit
                      , y := (fws.get ⟨i, h⟩).review.maturity }]
           , backgroundColor := "rgba(75, 192, 192, 1)" } := by
  simp [buildChartConfig, mkDatasets, List.getElem?_map, List.getElem?_eq_getElem h]

/-- C5: for every input item list the renderer creates exactly one dataset
per item, in order, whose label is the item's name and whose data is the
single point `(fit, maturity)` — the spec's `(score_x, score_y)` — so the
number of plotted points equals the number of items. -/
theorem C5_one_dataset_per_item (fws : List Framework) :
    (buildChartConfig fws).datasets.length = fws.length
    ∧ ∀ i : ℕ, ∀ h : i < fws.length,
        (buildChartConfig fws).datasets.get? i =
          some { label := (fws.get ⟨i, h⟩).name
               , data := [{ x := (fws.get ⟨i, h⟩).review.fit
                          , y := (fws.get ⟨i, h⟩).review.maturity }]
               , backgroundColor := "rgba(75, 192, 192, 1)" } := by
  constructor
  · simp [buildChartConfig, mkDatasets]
  · exact buildChartConfig_datasets_get? fws

/-- Witness for C5: the real `frameworks` list produces eleven datasets and
dataset 0 is the single-point series for "Pydantic AI". -/
theorem C5_one_dataset_per_item_witness :
    (buildChartConfig frameworks).datasets.length = frameworks.length
    ∧ (buildChartConfig frameworks).datasets.get? 0 =
        some { label := "Pydantic AI"
             , data := [{ x := 8.5, y := 8 }]
             , backgroundColor := "rgba(75, 192, 192, 1)" } :=
  ⟨(C5_one_dataset_per_item frameworks).1,
    (C5_one_dataset_per_item frameworks).2 0 (by decide)⟩

/-- C3: hovering the point of item `i` produces a tooltip whose title is
`Item[i].name` and whose body is `Item[i].description`, for every `i` and
every item list — the lookup is keyed by dataset index (`datasetIndex`),
never by name, so items sharing a name keep their own tooltip content. -/
theorem C3_tooltip_keyed_by_index (fws : List Framework) (i : ℕ)
    (h : i < fws.length) :
    tooltipTitle (hoverTooltipItems (buildChartConfig fws) i)
      = some (fws.get ⟨i, h⟩).name
    ∧ (hoverTooltipItems (buildChartConfig fws) i).map (tooltipLabel fws)
      = [some (fws.get ⟨i, h⟩).description] := by
  have hds := buildChartConfig_datasets_get? fws i h
  unfold hoverTooltipItems
  rw [hds]
  simp [tooltipTitle, tooltipLabel, List.getElem?_eq_getElem h]

/-- Witness for C3: two items sharing the name "A" but with different
descriptions; hovering point 1 yields the title "A" and the body "d2" —
the second item's own description, not the first's. -/
theorem C3_tooltip_keyed_by_index_witness :
    (1 : ℕ) < ([ { name := "A", link := "l1", description := "d1"
                 , review := { fit := 7, maturity := 7, assessmentDate := "2025-07-01" } }
               , { name := "A", link := "l2", description := "d2"
                 , review := { fit := 3, maturity := 3, assessmentDate := "2025-07-01" } } ]
        : List Framework).length
    ∧ tooltipTitle (hoverTooltipItems (buildChartConfig
        [ { name := "A", link := "l1", description := "d1"
          , review := { fit := 7, maturity := 7, assessmentDate := "2025-07-01" } }
        , { name := "A", link := "l2", description := "d2"
          , review := { fit := 3, maturity := 3, assessmentDate := "2025-07-01" } } ]) 1)
      = some "A"
    ∧ (hoverTooltipItems (buildChartConfig
        [ { name := "A", link := "l1", description := "d1"
          , review := { fit := 7, maturity := 7, assessmentDate := "2025-07-01" } }
        , { name := "A", link := "l2", description := "d2"
          , review := { fit := 3, maturity := 3, assessmentDate := "2025-07-01" } } ]) 1).map
        (tooltipLabel
          [ { name := "A", link := "l1", description := "d1"
            , review := { fit := 7, maturity := 7, assessmentDate := "2025-07-01" } }
          , { name := "A", link := "l2", description := "d2"
            , review := { fit := 3, maturity := 3, assessmentDate := "2025-07-01" } } ])
      = [some "d2"] :=
  ⟨by decide,
    (C3_tooltip_keyed_by_index _ 1 (by decide)).1,
    (C3_tooltip_keyed_by_index _ 1 (by decide)).2⟩

/-- C6: both axes are configured as linear (the x axis explicitly, the y
axis by the library's scatter default) with fixed inclusive range [0, 10];
the configuration is the same constant for every input item list, and the
quadrant boundary value 5 maps to the exact pixel midpoint of the plot
area on each axis. -/
theorem C6_fixed_linear_axes (fws : List Framework) :
    (buildChartConfig fws).scalesX = scalesX
    ∧ (buildChartConfig fws).scalesY = scalesY
    ∧ scalesX.scaleType = some "linear"
    ∧ resolvedScaleType scalesX = "linear"
    ∧ resolvedScaleType scalesY = "linear"
    ∧ scalesX.min = 0 ∧ scalesX.max = 10 ∧ scalesY.min = 0 ∧ scalesY.max = 10
    ∧ ∀ area : ChartArea,
        (layoutChart area).x.getPixelForValue 5 = (area.left + area.right) / 2
        ∧ (layoutChart area).y.getPixelForValue 5 = (area.top + area.bottom) / 2 :=
  ⟨rfl, rfl, rfl, rfl, rfl, rfl, rfl, rfl, rfl,
    fun area => ⟨xMidPix_eq area, yMidPix_eq area⟩⟩

/-- C8: under the laid-out linear scales the pixel position of a point is
strictly monotonic in both scores — a larger `score_x` gives a strictly
larger pixel x (further right), a larger `score_y` gives a strictly
smaller screen pixel y (further up) — and the value-to-pixel mapping is
invertible: `getValueForPixel` is a two-sided inverse of
`getPixelForValue` on both axes. -/
theorem C8_monotone_invertible_pixel_mapping (area : ChartArea) (v1 v2 w : ℚ)
    (hlr : area.left < area.right) (htb : area.top < area.bottom)
    (h01 : 0 ≤ v1) (h110 : v1 ≤ 10) (h02 : 0 ≤ v2) (h210 : v2 ≤ 10)
    (hlt : v1 < v2) :
    (pointPixel area v1 w).1 < (pointPixel area v2 w).1
    ∧ (pointPixel area w v2).2 < (pointPixel area w v1).2
    ∧ (∀ v : ℚ, (layoutChart area).x.getValueForPixel
        ((layoutChart area).x.getPixelForValue v) = v)
    ∧ (∀ v : ℚ, (layoutChart area).y.getValueForPixel
        ((layoutChart area).y.getPixelForValue v) = v)
    ∧ (∀ p : ℚ, (layoutChart area).x.getPixelForValue
        ((layoutChart area).x.getValueForPixel p) = p)
    ∧ (∀ p : ℚ, (layoutChart area).y.getPixelForValue
        ((layoutChart area).y.getValueForPixel p) = p) := by
  have hxne : area.right - area.left ≠ 0 := sub_ne_zero.mpr (ne_of_gt hlr)
  have hyne : area.top - area.bottom ≠ 0 :=
    sub_ne_zero.mpr (ne_of_lt htb)
  refine ⟨?_, ?_, ?_, ?_, ?_, ?_⟩
  · rw [pointPixel_fst, pointPixel_fst]
    nlinarith [mul_pos (by linarith : (0:ℚ) < v2 - v1) (sub_pos.mpr hlr)]
  · rw [pointPixel_snd, pointPixel_snd]
    nlinarith [mul_pos (by linarith : (0:ℚ) < v2 - v1) (sub_pos.mpr htb)]
  · intro v
    simp only [layoutChart, Scale.getValueForPixel, Scale.getPixelForValue, scalesX]
    field_simp
    ring
  · intro v
    simp only [layoutChart, Scale.getValueForPixel, Scale.getPixelForValue, scalesY]
    field_simp
    ring
  · intro p
    simp only [layoutChart, Scale.getValueForPixel, Scale.getPixelForValue, scalesX]
    field_simp
    ring
  · intro p
    simp only [layoutChart, Scale.getValueForPixel, Scale.getPixelForValue, scalesY]
    field_simp
    ring

/-- Witness for C8: on the plot area (left 0, top 0, right 100, bottom 80),
moving the x score from 3 to 7 moves the point right, moving the y score
from 3 to 7 moves it up, and the inverse map recovers the value 3. -/
theorem C8_monotone_invertible_pixel_mapping_witness :
    (0:ℚ) ≤ 3 ∧ (3:ℚ) < 7 ∧ (7:ℚ) ≤ 10
    ∧ (pointPixel ⟨0, 0, 100, 80⟩ 3 5).1 < (pointPixel ⟨0, 0, 100, 80⟩ 7 5).1
    ∧ (pointPixel ⟨0, 0, 100, 80⟩ 5 7).2 < (pointPixel ⟨0, 0, 100, 80⟩ 5 3).2
    ∧ (layoutChart ⟨0, 0, 100, 80⟩).x.getValueForPixel
        ((layoutChart ⟨0, 0, 100, 80⟩).x.getPixelForValue 3) = 3 :=
  ⟨by norm_num, by norm_num, by norm_num,
    (C8_monotone_invertible_pixel_mapping ⟨0, 0, 100, 80⟩ 3 7 5 (by norm_num)
      (by norm_num) (by norm_num) (by norm_num) (by norm_num) (by norm_num)
      (by norm_num)).1,
    (C8_monotone_invertible_pixel_mapping ⟨0, 0, 100, 80⟩ 3 7 5 (by norm_num)
      (by norm_num) (by norm_num) (by norm_num) (by norm_num) (by norm_num)
      (by norm_num)).2.1,
    (C8_monotone_invertible_pixel_mapping ⟨0, 0, 100, 80⟩ 3 7 5 (by norm_num)
      (by norm_num) (by norm_num) (by norm_num) (by norm_num) (by norm_num)
      (by norm_num)).2.2.1 3⟩

/-- C9: the datalabels plugin is configured to draw a permanent label above
each point (`align` top, `anchor` end, `display` true), and its formatter
returns the dataset label — the item's name — for every point value. -/
theorem C9_permanent_name_labels (fws : List Framework) (i : ℕ)
    (h : i < fws.length) (value : ScatterPoint) :
    (buildChartConfig fws).datalabels
      = { align := "top", anchor := "end", display := true }
    ∧ ∀ d : Dataset, (buildChartConfig fws).datasets.get? i = some d →
        datalabelsFormatter value { dataset := d } = (fws.get ⟨i, h⟩).name := by
  refine ⟨rfl, fun d hd => ?_⟩
  have hds := buildChartConfig_datasets_get? fws i h
  rw [hds] at hd
  cases hd
  rfl

/-- Witness for C9: the first dataset of the real chart; its permanent
label is "Pydantic AI" whatever the hovered value. -/
theorem C9_permanent_name_labels_witness :
    (buildChartConfig frameworks).datalabels
      = { align := "top", anchor := "end", display := true }
    ∧ datalabelsFormatter { x := 1, y := 2 }
        { dataset := { label := "Pydantic AI"
                     , data := [{ x := 8.5, y := 8 }]
                     , backgroundColor := "rgba(75, 192, 192, 1)" } }
      = "Pydantic AI" :=
  ⟨(C9_permanent_name_labels frameworks 0 (by decide) { x := 1, y := 2 }).1,
    (C9_permanent_name_labels frameworks 0 (by decide) { x := 1, y := 2 }).2
      _ rfl⟩

/-- C7: the auxiliary index list contains exactly the items with a
non-empty `detail_path`, in input order, each as a link whose text is the
item's name and whose target is its `detail_path`; when no item qualifies
the output region stays empty — neither a list nor a header is rendered. -/
theorem C7_auxiliary_index_list (items : List Item) :
    ((∀ it ∈ items, it.hasDetail = false) → renderAuxiliaryIndex items = none)
    ∧ (∀ r : RenderedIndex, renderAuxiliaryIndex items = some r →
        r.links = (items.filter Item.hasDetail).map
            (fun it => (it.name, it.detail_path.getD ""))
        ∧ ∀ nm tg : String, ((nm, tg) ∈ r.links ↔
            ∃ it ∈ items, it.name = nm ∧ it.detail_path = some tg ∧ tg ≠ "")) := by
  constructor
  · intro hall
    have hnil : items.filter Item.hasDetail = [] :=
      List.filter_eq_nil_iff.mpr fun a ha => by simp [hall a ha]
    simp [renderAuxiliaryIndex, hnil]
  · intro r hr
    simp only [renderAuxiliaryIndex] at hr
    split at hr
    · exact absurd hr (by simp)
    · cases hr
      refine ⟨rfl, fun nm tg => ?_⟩
      constructor
      · intro hmem
        simp only [List.mem_map, List.mem_filter] at hmem
        obtain ⟨it, ⟨hin, hdet⟩, heq⟩ := hmem
        simp only [Prod.mk.injEq] at heq
        rcases hpath : it.detail_path with _ | s
        · rw [Item.hasDetail, hpath] at hdet
          simp at hdet
        · refine ⟨it, hin, heq.1, ?_, ?_⟩
          · rw [hpath, ← heq.2, hpath]
            rfl
          · rw [← heq.2, hpath]
            rw [Item.hasDetail, hpath] at hdet
            simpa using hdet
      · rintro ⟨it, hin, rfl, hpath, hne⟩
        simp only [List.mem_map, List.mem_filter]
        exact ⟨it, ⟨hin, by simp [Item.hasDetail, hpath, hne]⟩, by simp [hpath]⟩

/-- Witness for C7: a one-item input whose `detail_path` is absent renders
nothing at all. -/
theorem C7_auxiliary_index_list_witness :
    renderAuxiliaryIndex
      [ { name := "A", link := none, description := "d"
        , score_x := 1, score_y := 2, detail_path := none } ] = none :=
  (C7_auxiliary_index_list _).1 (by decide)
